import Mathlib

/-!
Verification of the deterministic core of `appf.py` (RRR Release Analysis Tool):
the metrics schema validator `validate_metrics`, the tiered JSON recovery
parser `clean_json_output`, and the trend annotation phase of
`process_task_output`.

JSON values produced by Python's `json.loads` are modelled by the inductive
type `Json` below.  Python numbers are modelled by rationals (the claims under
study only exercise values on which binary floating point and exact rational
arithmetic agree).  Python dictionaries are modelled as association lists with
the keys unique and in insertion order; `json.loads` can only produce
dictionaries with string keys.

The three extraction tiers of `clean_json_output` call `json.loads` and
`re.search`, which are external to the core being verified; they are
abstracted as three `Option Json` parameters, one per tier: `none` models a
parse failure (`JSONDecodeError` or no regex match) and `some d` models a
successful parse yielding document `d`.  Everything downstream of the parse
attempts is translated directly from the source.
-/

set_option maxHeartbeats 1000000

namespace RRR

/-- JSON value, as produced by Python's `json.loads`. -/
inductive Json where
  | null : Json
  | bool : Bool → Json
  | num : ℚ → Json
  | str : String → Json
  | arr : List Json → Json
  | obj : List (String × Json) → Json

/-- Dictionary lookup `k in d` / `d[k]` on an association list. -/
def lookupKey : List (String × Json) → String → Option Json
  | [], _ => none
  | (k, v) :: rest, key => if k = key then some v else lookupKey rest key

/-- `j[key]` when `j` is a dictionary containing `key`; `none` otherwise. -/
def Json.lookup : Json → String → Option Json
  | .obj kvs, key => lookupKey kvs key
  | _, _ => none

/-- Dictionary assignment `d[k] = v`: replaces the value of an existing key in
place, otherwise appends the new key at the end (Python insertion order). -/
def setKey : List (String × Json) → String → Json → List (String × Json)
  | [], key, v => [(key, v)]
  | (k, w) :: rest, key, v =>
      if k = key then (k, v) :: rest else (k, w) :: setKey rest key v

/-- `j[key] = v` on a dictionary value; any non-dictionary is left unchanged
(the source only assigns into values already known to be dictionaries). -/
def Json.setField : Json → String → Json → Json
  | .obj kvs, key, v => .obj (setKey kvs key v)
  | j, _, _ => j

/-- The constant `EXPECTED_METRICS` of `appf.py` (lines 70-75). -/
def EXPECTED_METRICS : List String :=
  ["Open ALL RRR Defects", "Open Security Defects", "All Open Defects (T-1)",
   "All Security Open Defects", "Load/Performance", "E2E Test Coverage",
   "Automation Test Coverage", "Unit Test Coverage", "Defect Closure Rate",
   "Regression Issues", "Customer Specific Testing (UAT)"]

/-- The status values accepted by `validate_metrics` (lines 361, 380, 395). -/
def STATUS_VALUES : List String :=
  ["ON TRACK", "MEDIUM RISK", "HIGH RISK", "LOW RISK", "RISK", "NEEDS REVIEW"]

/-- `EXPECTED_METRICS[:5]`, the metric names given the ATLS/BTLS group shape
(note that "Load/Performance" is itself the fifth entry, so the source's extra
`or metric == "Load/Performance"` test is redundant). -/
def atlsBtlsNames : List String := EXPECTED_METRICS.take 5

/-- The remaining five fixed metric names, which get the flat-list shape. -/
def flatFiveNames : List String :=
  ["E2E Test Coverage", "Automation Test Coverage", "Unit Test Coverage",
   "Defect Closure Rate", "Regression Issues"]

/-- Python `isinstance(x, (int, float))`; note that Python `bool` is a
subclass of `int`, so boolean JSON values also pass this test. -/
def Json.isNumberLike : Json → Bool
  | .num _ => true
  | .bool _ => true
  | _ => false

/-- Python `isinstance(x, str)` on a JSON value. -/
def Json.isStr : Json → Bool
  | .str _ => true
  | _ => false

/-- Check of one `{version, value, status}` item (lines 355-363 / 388-397):
the item is a dictionary with the three keys present, `version` a string,
`value` numeric, `status` a string drawn from `STATUS_VALUES`. -/
def checkValueItem (j : Json) : Bool :=
  match j.lookup "version", j.lookup "value", j.lookup "status" with
  | some ver, some val, some st =>
      ver.isStr && val.isNumberLike &&
        (match st with
         | .str s => STATUS_VALUES.contains s
         | _ => false)
  | _, _, _ => false

/-- Check of one UAT `{version, pass_count, fail_count, status}` item
(lines 373-382). -/
def checkUatItem (j : Json) : Bool :=
  match j.lookup "version", j.lookup "pass_count", j.lookup "fail_count",
        j.lookup "status" with
  | some ver, some pc, some fc, some st =>
      ver.isStr && pc.isNumberLike && fc.isNumberLike &&
        (match st with
         | .str s => STATUS_VALUES.contains s
         | _ => false)
  | _, _, _, _ => false

/-- A series must be a list whose members all pass `checkValueItem`
(lines 351-363 / 385-397). -/
def checkValueList (j : Json) : Bool :=
  match j with
  | .arr items => items.all checkValueItem
  | _ => false

/-- A UAT client series must be a list of valid UAT items (lines 370-382). -/
def checkUatList (j : Json) : Bool :=
  match j with
  | .arr items => items.all checkUatItem
  | _ => false

/-- The per-metric check of `validate_metrics` (lines 340-397), dispatching on
the metric name exactly as the source does.  A failed `Json.lookup` covers
both the `not isinstance(..., dict)` and the missing-key tests, since lookup
on a non-dictionary returns `none`. -/
def checkMetricEntry (md : Json) (name : String) : Bool :=
  match md.lookup name with
  | none => false
  | some v =>
      if atlsBtlsNames.contains name || name = "Load/Performance" then
        match v.lookup "ATLS", v.lookup "BTLS" with
        | some a, some b => checkValueList a && checkValueList b
        | _, _ => false
      else if name = "Customer Specific Testing (UAT)" then
        match v.lookup "RBS", v.lookup "Tesco", v.lookup "Belk" with
        | some r, some t, some bl => checkUatList r && checkUatList t && checkUatList bl
        | _, _, _ => false
      else checkValueList v

/-- The metrics data extraction at the head of `validate_metrics`
(lines 330-337): the candidate must be a dictionary with key `metrics` whose
value is itself a dictionary. -/
def metricsData? (m : Json) : Option Json :=
  match m with
  | .obj _ =>
      match m.lookup "metrics" with
      | some md =>
          match md with
          | .obj _ => some md
          | _ => none
      | none => none
  | _ => none

/-- `validate_metrics` (lines 329-398).  Returns a boolean and never raises. -/
def validate_metrics (m : Json) : Bool :=
  match metricsData? m with
  | none => false
  | some md => EXPECTED_METRICS.all fun name => checkMetricEntry md name

/-- One default point of the flat fallback series (line 879): value 10 for
the first enumerated version, 0 for the rest, status NEEDS REVIEW. -/
def defaultValuePoint (i : ℕ) (v : String) : Json :=
  .obj [("version", .str v), ("value", .num (if i = 0 then 10 else 0)),
        ("status", .str "NEEDS REVIEW")]

/-- The flat fallback series (lines 878-881): one point per enumerated
fallback version. -/
def defaultValueSeries (fvs : List String) : Json :=
  .arr (fvs.enum.map fun p => defaultValuePoint p.1 p.2)

/-- One default UAT point (lines 893-895): `pass_count` 10 and `fail_count`
0 for every version (the enumeration index is unused by the source). -/
def defaultUatPoint (v : String) : Json :=
  .obj [("version", .str v), ("pass_count", .num 10), ("fail_count", .num 0),
        ("status", .str "NEEDS REVIEW")]

/-- A default UAT client series (lines 893-895). -/
def defaultUatSeries (fvs : List String) : Json :=
  .arr (fvs.map defaultUatPoint)

/-- The metric-name-to-series entries of the fallback document, built exactly
as in lines 876-896: a flat default for every expected metric, then the five
ATLS/BTLS metrics (plus "Load/Performance" again, redundantly) overwritten
with the grouped shape, then the UAT metric overwritten with the client
shape. -/
def defaultMetricsEntries (fvs : List String) : List (String × Json) :=
  let base := EXPECTED_METRICS.map fun m => (m, defaultValueSeries fvs)
  let step2 := (atlsBtlsNames ++ ["Load/Performance"]).foldl
    (fun acc m => setKey acc m
      (.obj [("ATLS", defaultValueSeries fvs), ("BTLS", defaultValueSeries fvs)]))
    base
  setKey step2 "Customer Specific Testing (UAT)"
    (.obj [("RBS", defaultUatSeries fvs), ("Tesco", defaultUatSeries fvs),
           ("Belk", defaultUatSeries fvs)])

/-- `default_json` of `clean_json_output` (lines 876-896). -/
def default_json (fvs : List String) : Json :=
  .obj [("metrics", .obj (defaultMetricsEntries fvs))]

/-- A tier of `clean_json_output` succeeds when its parse produced a document
accepted by `validate_metrics`; otherwise control falls through to the next
tier (lines 898-927). -/
def acceptTier : Option Json → Option Json
  | some d => if validate_metrics d then some d else none
  | none => none

/-- `clean_json_output` (lines 873-930).  `tier1`, `tier2`, `tier3` are the
parse outcomes of the three extraction tiers (direct `json.loads`, fenced
code block, brace-delimited substring after quote/comma repair); the
fallback default document is returned when every tier fails. -/
def clean_json_output (tier1 tier2 tier3 : Option Json) (fvs : List String) : Json :=
  match acceptTier tier1 with
  | some d => d
  | none =>
      match acceptTier tier2 with
      | some d => d
      | none =>
          match acceptTier tier3 with
          | some d => d
          | none => default_json fvs

/-! ### Typed model of validated documents, and the trend annotation phase

`process_task_output` (lines 400-476) runs trend annotation on a document that
has already passed `validate_metrics`.  For the claims about annotation of
validated documents, the points of the eleven fixed metrics are modelled by
the typed records below (a validated item is a dictionary with the required
fields of the required runtime types; `value`, `pass_count`, `fail_count` may
also be Python booleans, which `float()` maps to 1.0 / 0.0, so a rational
field is a faithful model of what the arithmetic sees). -/

/-- A `{version, value, status}` point as stored for the non-UAT metrics;
`trend` is written by the annotator (lines 418-431 / 462-475). -/
structure MetricPoint where
  version : String
  value : ℚ
  status : String
  trend : Option String := none
  deriving DecidableEq, Repr

/-- A UAT `{version, pass_count, fail_count, status}` point; `pass_rate` and
`trend` are written by the annotator (lines 436-457). -/
structure UatPoint where
  version : String
  pass_count : ℚ
  fail_count : ℚ
  status : String
  pass_rate : Option ℚ := none
  trend : Option String := none
  deriving DecidableEq, Repr

/-- Lexicographic `<` on lists of characters, compared by code point: the
order Python uses on `str`. -/
def charListLt : List Char → List Char → Bool
  | _, [] => false
  | [], _ :: _ => true
  | a :: as, b :: bs =>
      if a < b then true else if b < a then false else charListLt as bs

/-- Python string `<=` (code-point lexicographic). -/
def strLe (a b : String) : Bool := !(charListLt b.data a.data)

/-- Insert into a sorted list, placing the new element before the first
element it compares `le` to.  With a total `le` this reproduces one step of a
stable ascending sort. -/
def insertLe (le : α → α → Bool) (a : α) : List α → List α
  | [] => [a]
  | b :: l => if le a b then a :: b :: l else b :: insertLe le a l

/-- Stable insertion sort; models Python's stable `sorted`. -/
def sortLe (le : α → α → Bool) : List α → List α
  | [] => []
  | a :: l => insertLe le a (sortLe le l)

/-- Sort index-tagged elements by a string key of the element, stably, in
ascending order: models `sorted(items, key=lambda x: x['version'])` while
remembering each element's original position. -/
def sortIdxByKey (key : α → String) (xs : List α) : List (ℕ × α) :=
  sortLe (fun a b => strLe (key a.2) (key b.2)) xs.enum

/-- Undo the index tagging: return the elements in original-position order.
Python's loop mutates the shared point dictionaries, so the annotated series
keeps its original order while trends are computed along sorted order; this
models that by sorting the tags back. -/
def restoreIdx (l : List (ℕ × α)) : List α :=
  (sortLe (fun a b => Nat.ble a.1 b.1) l).map fun p => p.2

/-- Absolute value on ℚ, written out as the source's `abs(...)`. -/
def ratAbs (x : ℚ) : ℚ := if x < 0 then -x else x

/-- Python `round()` / `format(..., '.1f')` round half to even on the decimal
value; modelled exactly on ℚ: nearest integer, ties to the even one. -/
def roundHalfEven (x : ℚ) : ℤ :=
  let f : ℤ := ⌊x⌋
  if x - f < 1/2 then f
  else if (1:ℚ)/2 < x - f then f + 1
  else if f % 2 = 0 then f else f + 1

/-- `round(x, 1)` (line 440). -/
def roundQ1 (x : ℚ) : ℚ := (roundHalfEven (x * 10) : ℚ) / 10

/-- `f"{y:.1f}"` for the nonnegative magnitudes the source formats. -/
def fmtOneDec (x : ℚ) : String :=
  let n := roundHalfEven (x * 10)
  toString (n / 10) ++ "." ++ toString (n % 10)

/-- Trend mark for a non-UAT point given the previous and current values,
both known non-zero ("truthy") by the caller: lines 420-431 and 464-475.
The source's threshold literals 0.01 and 1 are exact here. -/
def flatTrendMark (prev_val curr_val : ℚ) : String :=
  if prev_val = 0 ∨ ratAbs (curr_val - prev_val) < 1/100 then "→"
  else
    let pct_change := (curr_val - prev_val) / prev_val * 100
    if ratAbs pct_change < 1 then "→"
    else if 0 < pct_change then "↑ (" ++ fmtOneDec (ratAbs pct_change) ++ "%)"
    else "↓ (" ++ fmtOneDec (ratAbs pct_change) ++ "%)"

/-- `pass_count / (pass_count + fail_count) * 100 if total > 0 else 0`
(lines 438-439 and 446-447). -/
def uatPassRate (pass_count fail_count : ℚ) : ℚ :=
  if 0 < pass_count + fail_count then pass_count / (pass_count + fail_count) * 100
  else 0

/-- Trend mark for a UAT point from the previous and current counts
(lines 444-457): note the extra guard giving `→` whenever either total is
exactly zero, and that the unrounded rates are compared. -/
def uatTrendMark (prev_pass prev_fail curr_pass curr_fail : ℚ) : String :=
  let pass_rate := uatPassRate curr_pass curr_fail
  let prev_pass_rate := uatPassRate prev_pass prev_fail
  if prev_pass + prev_fail = 0 ∨ curr_pass + curr_fail = 0 ∨
     ratAbs (pass_rate - prev_pass_rate) < 1/100 then "→"
  else
    let pct_change := pass_rate - prev_pass_rate
    if ratAbs pct_change < 1 then "→"
    else if 0 < pct_change then "↑ (" ++ fmtOneDec (ratAbs pct_change) ++ "%)"
    else "↓ (" ++ fmtOneDec (ratAbs pct_change) ++ "%)"

/-- The annotation loop over a version-sorted flat or ATLS/BTLS series
(lines 415-431 / 459-475), carried out along the sorted order; `prev` holds
the previous sorted point's value (`none` at the first point, `i == 0`).
A zero value is "falsy" in Python, so `not items[i].get('value')` on a
validated item is exactly a zero test. -/
def annotateValueItemsSorted (prev : Option ℚ) :
    List (ℕ × MetricPoint) → List (ℕ × MetricPoint)
  | [] => []
  | (i, p) :: rest =>
      let t : String :=
        match prev with
        | none => "→"
        | some pv =>
            if p.value = 0 ∨ pv = 0 then "→"
            else flatTrendMark pv p.value
      (i, { p with trend := some t }) :: annotateValueItemsSorted (some p.value) rest

/-- The annotation loop over a version-sorted UAT client series
(lines 434-457); `prev` holds the previous point's counts. -/
def annotateUatItemsSorted (prev : Option (ℚ × ℚ)) :
    List (ℕ × UatPoint) → List (ℕ × UatPoint)
  | [] => []
  | (i, p) :: rest =>
      let rate := uatPassRate p.pass_count p.fail_count
      let t : String :=
        match prev with
        | none => "→"
        | some pq => uatTrendMark pq.1 pq.2 p.pass_count p.fail_count
      (i, { p with pass_rate := some (roundQ1 rate), trend := some t }) ::
        annotateUatItemsSorted (some (p.pass_count, p.fail_count)) rest

/-- Full annotation of a flat or ATLS/BTLS series: sort a tagged copy by
version, annotate along sorted order, return the points in their original
order (Python mutates the shared dictionaries in place). -/
def annotateValueSeries (xs : List MetricPoint) : List MetricPoint :=
  restoreIdx (annotateValueItemsSorted none (sortIdxByKey MetricPoint.version xs))

/-- The annotated series as seen in version-sorted order. -/
def annotatedSortedValueSeries (xs : List MetricPoint) : List MetricPoint :=
  (annotateValueItemsSorted none (sortIdxByKey MetricPoint.version xs)).map
    fun p => p.2

/-- Full annotation of a UAT client series, original order restored. -/
def annotateUatSeries (xs : List UatPoint) : List UatPoint :=
  restoreIdx (annotateUatItemsSorted none (sortIdxByKey UatPoint.version xs))

/-- The annotated UAT series as seen in version-sorted order. -/
def annotatedSortedUatSeries (xs : List UatPoint) : List UatPoint :=
  (annotateUatItemsSorted none (sortIdxByKey UatPoint.version xs)).map
    fun p => p.2

/-- A validated metrics document in typed form: the five ATLS/BTLS grouped
metrics (name, ATLS series, BTLS series), the three UAT client series, and
the five flat metrics (name, series). -/
structure MetricsDocument where
  groupedMetrics : List (String × List MetricPoint × List MetricPoint)
  uatRBS : List UatPoint
  uatTesco : List UatPoint
  uatBelk : List UatPoint
  flatMetrics : List (String × List MetricPoint)

/-- The annotation phase of `process_task_output` (lines 412-476) on a typed
document: every ATLS/BTLS sub-series and flat series through the value-series
loop, every UAT client series through the UAT loop. -/
def annotateDocument (d : MetricsDocument) : MetricsDocument where
  groupedMetrics := d.groupedMetrics.map fun g =>
    (g.1, annotateValueSeries g.2.1, annotateValueSeries g.2.2)
  uatRBS := annotateUatSeries d.uatRBS
  uatTesco := annotateUatSeries d.uatTesco
  uatBelk := annotateUatSeries d.uatBelk
  flatMetrics := d.flatMetrics.map fun f => (f.1, annotateValueSeries f.2)

/-- All value-point series of a document: each ATLS sub-series, each BTLS
sub-series, each flat series. -/
def flatSeriesOf (d : MetricsDocument) : List (List MetricPoint) :=
  d.groupedMetrics.map (fun g => g.2.1) ++ d.groupedMetrics.map (fun g => g.2.2) ++
    d.flatMetrics.map fun f => f.2

/-- The three UAT client series of a document. -/
def uatSeriesOf (d : MetricsDocument) : List (List UatPoint) :=
  [d.uatRBS, d.uatTesco, d.uatBelk]

/-! ### The annotation loop over raw JSON, and `process_task_output`

`process_task_output` iterates over every key of `data['metrics']`, including
keys that are not among the eleven validated metric names, and each Python
step that can raise (`sorted` with an invalid key function, `float()` on an
inconvertible value, indexing a missing/ill-typed entry) is modelled by an
`Except String` error. -/

/-- Python truthiness of a JSON value (`not x` in lines 417 / 461). -/
def jsonFalsy : Json → Bool
  | .null => true
  | .bool b => !b
  | .num q => q = 0
  | .str s => s = ""
  | .arr xs => xs.isEmpty
  | .obj kvs => kvs.isEmpty

/-- Truthiness of `item.get(key)`: a missing key yields `None`, which is
falsy. -/
def optValFalsy : Option Json → Bool
  | none => true
  | some j => jsonFalsy j

/-- Python `float(x)` on a JSON value.  (Python additionally parses numeric
strings; no value of that form reaches a `float()` call in the documents
evaluated here, since validated metric items are numeric.) -/
def floatOfJsonE : Json → Except String ℚ
  | .num q => .ok q
  | .bool b => .ok (if b then 1 else 0)
  | _ => .error "TypeError: float() conversion failed"

/-- `float(item[key])` where a missing key raises `KeyError`. -/
def floatOfOptE : Option Json → Except String ℚ
  | some j => floatOfJsonE j
  | none => .error "KeyError"

/-- `item.get(key, 0)` (lines 436-437, 444-445). -/
def getWithDefaultZero : Option Json → Json
  | some j => j
  | none => .num 0

/-- Pair a series item with its sort key `x['version']`: the item must be a
dictionary with a `version` key (otherwise Python's `sorted` raises through
its key function).  The model requires the version to be a string, the only
form occurring in validated documents; Python would also sort homogeneous
non-string versions. -/
def keyedItem? (j : Json) : Option (Json × String) :=
  match j with
  | .obj _ =>
      match j.lookup "version" with
      | some (.str s) => some (j, s)
      | _ => none
  | _ => none

/-- Lines 416-431 / 460-475 over JSON items along sorted order; `prev` holds
`items[i-1].get('value')`. -/
def annotateValueItemsJson (prev : Option (Option Json)) :
    List (ℕ × Json × String) → Except String (List (ℕ × Json))
  | [] => .ok []
  | (i, j, _) :: rest => do
      let currv := j.lookup "value"
      let t : String ← match prev with
        | none => Except.ok "→"
        | some prevv =>
            if optValFalsy currv || optValFalsy prevv then Except.ok "→"
            else do
              let pv ← floatOfOptE prevv
              let cv ← floatOfOptE currv
              Except.ok (flatTrendMark pv cv)
      let rest' ← annotateValueItemsJson (some currv) rest
      Except.ok ((i, j.setField "trend" (.str t)) :: rest')

/-- Lines 435-457 over JSON items along sorted order; `prev` holds the
previous item's counts. -/
def annotateUatItemsJson (prev : Option (ℚ × ℚ)) :
    List (ℕ × Json × String) → Except String (List (ℕ × Json))
  | [] => .ok []
  | (i, j, _) :: rest => do
      let pc ← floatOfJsonE (getWithDefaultZero (j.lookup "pass_count"))
      let fc ← floatOfJsonE (getWithDefaultZero (j.lookup "fail_count"))
      let rate := uatPassRate pc fc
      let t : String :=
        match prev with
        | none => "→"
        | some pq => uatTrendMark pq.1 pq.2 pc fc
      let j' := (j.setField "pass_rate" (.num (roundQ1 rate))).setField "trend" (.str t)
      let rest' ← annotateUatItemsJson (some (pc, fc)) rest
      Except.ok ((i, j') :: rest')

/-- `sorted(series, key=lambda x: x['version'])` followed by the value-item
annotation loop; the original order of the underlying list is preserved
(Python mutates the shared dictionaries). -/
def annotateValueArrJson (items : List Json) : Except String (List Json) :=
  match items.mapM keyedItem? with
  | none => .error "TypeError: series item not sortable by version"
  | some keyed =>
      match annotateValueItemsJson none
          (sortLe (fun a b => strLe a.2.2 b.2.2) keyed.enum) with
      | .error e => .error e
      | .ok ann => .ok (restoreIdx ann)

/-- The UAT version of `annotateValueArrJson`. -/
def annotateUatArrJson (items : List Json) : Except String (List Json) :=
  match items.mapM keyedItem? with
  | none => .error "TypeError: series item not sortable by version"
  | some keyed =>
      match annotateUatItemsJson none
          (sortLe (fun a b => strLe a.2.2 b.2.2) keyed.enum) with
      | .error e => .error e
      | .ok ann => .ok (restoreIdx ann)

/-- Lines 413-431: the ATLS/BTLS branch, annotating the two sub-series in
order; indexing a missing or ill-typed sub-metric raises. -/
def annotateGroupJson (v : Json) : Except String Json :=
  match v.lookup "ATLS", v.lookup "BTLS" with
  | some (.arr aItems), some (.arr bItems) => do
      let a' ← annotateValueArrJson aItems
      let b' ← annotateValueArrJson bItems
      Except.ok ((v.setField "ATLS" (.arr a')).setField "BTLS" (.arr b'))
  | _, _ => .error "TypeError/KeyError: invalid ATLS/BTLS group"

/-- Lines 432-457: the UAT branch over the three client series. -/
def annotateUatGroupJson (v : Json) : Except String Json :=
  match v.lookup "RBS", v.lookup "Tesco", v.lookup "Belk" with
  | some (.arr rItems), some (.arr tItems), some (.arr bItems) => do
      let r' ← annotateUatArrJson rItems
      let t' ← annotateUatArrJson tItems
      let b' ← annotateUatArrJson bItems
      Except.ok (((v.setField "RBS" (.arr r')).setField "Tesco" (.arr t')).setField
        "Belk" (.arr b'))
  | _, _, _ => .error "TypeError/KeyError: invalid UAT group"

/-- Dispatch of the annotation loop body on the metric name (lines 413, 432,
458), identical to the validator's dispatch; any key of `data['metrics']`
outside the grouped names falls into the flat branch, where a non-list value
makes `sorted` raise. -/
def annotateMetricEntryJson (name : String) (v : Json) : Except String Json :=
  if atlsBtlsNames.contains name || name = "Load/Performance" then
    annotateGroupJson v
  else if name = "Customer Specific Testing (UAT)" then
    annotateUatGroupJson v
  else
    match v with
    | .arr items =>
        match annotateValueArrJson items with
        | .error e => .error e
        | .ok items' => .ok (.arr items')
    | _ => .error "TypeError: metric data is not a list"

/-- The whole annotation phase (lines 412-476) over the JSON document:
iterate `data['metrics'].items()` in insertion order, annotating each entry
in place. -/
def annotateJsonDoc (data : Json) : Except String Json :=
  match data.lookup "metrics" with
  | some (.obj entries) =>
      match entries.mapM (fun kv => do
          let v' ← annotateMetricEntryJson kv.1 kv.2
          Except.ok (kv.1, v')) with
      | .error e => .error e
      | .ok entries' => .ok (data.setField "metrics" (.obj entries'))
  | some _ => .error "TypeError: data['metrics'] is not a dictionary"
  | none => .error "KeyError: 'metrics'"

/-- The failure modes of `process_task_output`: the explicit
`ValueError("Invalid or incomplete metrics data")` of line 410, or an
exception escaping the annotation loop. -/
inductive PTOError where
  | invalidMetrics : PTOError
  | trendError : String → PTOError
  deriving DecidableEq, Repr

/-- `process_task_output` (lines 400-476): recover a document from the raw
output (tiers abstracted as in `clean_json_output`), raise `ValueError` if it
fails validation, otherwise run the annotation loop and return the annotated
document. -/
def process_task_output (tier1 tier2 tier3 : Option Json) (fvs : List String) :
    Except PTOError Json :=
  let data := clean_json_output tier1 tier2 tier3 fvs
  if validate_metrics data then
    match annotateJsonDoc data with
    | .ok d => .ok d
    | .error e => .error (.trendError e)
  else .error .invalidMetrics

/-! ### Basic lemmas -/

theorem checkValueItem_defaultValuePoint (i : ℕ) (v : String) :
    checkValueItem (defaultValuePoint i v) = true := rfl

theorem checkUatItem_defaultUatPoint (v : String) :
    checkUatItem (defaultUatPoint v) = true := rfl

theorem checkValueList_defaultValueSeries (fvs : List String) :
    checkValueList (defaultValueSeries fvs) = true := by
  rw [show checkValueList (defaultValueSeries fvs) =
        (fvs.enum.map fun p => defaultValuePoint p.1 p.2).all checkValueItem from rfl,
      List.all_eq_true]
  intro x hx
  obtain ⟨p, _, rfl⟩ := List.mem_map.mp hx
  exact checkValueItem_defaultValuePoint p.1 p.2

theorem checkUatList_defaultUatSeries (fvs : List String) :
    checkUatList (defaultUatSeries fvs) = true := by
  rw [show checkUatList (defaultUatSeries fvs) =
        (fvs.map defaultUatPoint).all checkUatItem from rfl,
      List.all_eq_true]
  intro x hx
  obtain ⟨v, _, rfl⟩ := List.mem_map.mp hx
  exact checkUatItem_defaultUatPoint v

/-- The grouped default entry: identical ATLS and BTLS series (lines 887-890). -/
def groupDefault (fvs : List String) : Json :=
  .obj [("ATLS", defaultValueSeries fvs), ("BTLS", defaultValueSeries fvs)]

/-- The UAT default entry (lines 892-896). -/
def uatGroupDefault (fvs : List String) : Json :=
  .obj [("RBS", defaultUatSeries fvs), ("Tesco", defaultUatSeries fvs),
        ("Belk", defaultUatSeries fvs)]

/-- Normal form of the construction of lines 876-896: the flat comprehension
followed by the grouped and UAT overwrites yields these eleven entries, in
the original insertion order. -/
theorem defaultMetricsEntries_eq (fvs : List String) :
    defaultMetricsEntries fvs =
      [("Open ALL RRR Defects", groupDefault fvs),
       ("Open Security Defects", groupDefault fvs),
       ("All Open Defects (T-1)", groupDefault fvs),
       ("All Security Open Defects", groupDefault fvs),
       ("Load/Performance", groupDefault fvs),
       ("E2E Test Coverage", defaultValueSeries fvs),
       ("Automation Test Coverage", defaultValueSeries fvs),
       ("Unit Test Coverage", defaultValueSeries fvs),
       ("Defect Closure Rate", defaultValueSeries fvs),
       ("Regression Issues", defaultValueSeries fvs),
       ("Customer Specific Testing (UAT)", uatGroupDefault fvs)] := rfl

theorem validate_metrics_default (fvs : List String) :
    validate_metrics (default_json fvs) = true := by
  have hv := checkValueList_defaultValueSeries fvs
  have hu := checkUatList_defaultUatSeries fvs
  rw [default_json, defaultMetricsEntries_eq]
  rw [show validate_metrics (Json.obj [("metrics", Json.obj
        [("Open ALL RRR Defects", groupDefault fvs),
         ("Open Security Defects", groupDefault fvs),
         ("All Open Defects (T-1)", groupDefault fvs),
         ("All Security Open Defects", groupDefault fvs),
         ("Load/Performance", groupDefault fvs),
         ("E2E Test Coverage", defaultValueSeries fvs),
         ("Automation Test Coverage", defaultValueSeries fvs),
         ("Unit Test Coverage", defaultValueSeries fvs),
         ("Defect Closure Rate", defaultValueSeries fvs),
         ("Regression Issues", defaultValueSeries fvs),
         ("Customer Specific Testing (UAT)", uatGroupDefault fvs)])]) =
      ((checkValueList (defaultValueSeries fvs) && checkValueList (defaultValueSeries fvs)) &&
       ((checkValueList (defaultValueSeries fvs) && checkValueList (defaultValueSeries fvs)) &&
        ((checkValueList (defaultValueSeries fvs) && checkValueList (defaultValueSeries fvs)) &&
         ((checkValueList (defaultValueSeries fvs) && checkValueList (defaultValueSeries fvs)) &&
          ((checkValueList (defaultValueSeries fvs) && checkValueList (defaultValueSeries fvs)) &&
           (checkValueList (defaultValueSeries fvs) &&
            (checkValueList (defaultValueSeries fvs) &&
             (checkValueList (defaultValueSeries fvs) &&
              (checkValueList (defaultValueSeries fvs) &&
               (checkValueList (defaultValueSeries fvs) &&
                ((checkUatList (defaultUatSeries fvs) && checkUatList (defaultUatSeries fvs) &&
                  checkUatList (defaultUatSeries fvs)) &&
                 true))))))))))) from rfl]
  rw [hv, hu]
  rfl

theorem acceptTier_validates {x : Option Json} {d : Json}
    (h : acceptTier x = some d) : validate_metrics d = true := by
  cases x with
  | none => simp [acceptTier] at h
  | some e =>
      rw [acceptTier] at h
      by_cases hv : validate_metrics e = true
      · rw [if_pos hv] at h
        cases h
        exact hv
      · rw [if_neg (by simpa using hv)] at h
        cases h

theorem validate_metrics_clean_json_output (t1 t2 t3 : Option Json)
    (fvs : List String) :
    validate_metrics (clean_json_output t1 t2 t3 fvs) = true := by
  rw [clean_json_output]
  cases h1 : acceptTier t1 with
  | some d => exact acceptTier_validates h1
  | none =>
      cases h2 : acceptTier t2 with
      | some d => exact acceptTier_validates h2
      | none =>
          cases h3 : acceptTier t3 with
          | some d => exact acceptTier_validates h3
          | none => exact validate_metrics_default fvs

/-! ### The default document as the specification describes it -/

/-- A first-version default point as the spec words it: value 10, status
NEEDS REVIEW. -/
def specFirstPoint (v : String) : Json :=
  .obj [("version", .str v), ("value", .num 10), ("status", .str "NEEDS REVIEW")]

/-- A subsequent-version default point as the spec words it: value 0. -/
def specLaterPoint (v : String) : Json :=
  .obj [("version", .str v), ("value", .num 0), ("status", .str "NEEDS REVIEW")]

/-- The flat default series exactly as claim C2 / spec §4.2 step 4 words it:
one point per fallback version, value 10 for the first version and 0 for
every subsequent version. -/
def claimFlatSeriesSpec : List String → List Json
  | [] => []
  | v :: rest => specFirstPoint v :: rest.map specLaterPoint

/-- A UAT default point as the claim words it: `pass_count` 10, `fail_count`
0, status NEEDS REVIEW, for every version. -/
def specUatPoint (v : String) : Json :=
  .obj [("version", .str v), ("pass_count", .num 10), ("fail_count", .num 0),
        ("status", .str "NEEDS REVIEW")]

/-- The whole default document exactly as claim C2 describes it: every flat
metric carries the flat default series; the five grouped metrics carry
identical ATLS and BTLS copies of that series; the UAT metric carries one
default UAT series per client. -/
def claimDefaultDoc (fvs : List String) : Json :=
  .obj [("metrics", .obj
    [("Open ALL RRR Defects", .obj [("ATLS", .arr (claimFlatSeriesSpec fvs)),
                                    ("BTLS", .arr (claimFlatSeriesSpec fvs))]),
     ("Open Security Defects", .obj [("ATLS", .arr (claimFlatSeriesSpec fvs)),
                                     ("BTLS", .arr (claimFlatSeriesSpec fvs))]),
     ("All Open Defects (T-1)", .obj [("ATLS", .arr (claimFlatSeriesSpec fvs)),
                                      ("BTLS", .arr (claimFlatSeriesSpec fvs))]),
     ("All Security Open Defects", .obj [("ATLS", .arr (claimFlatSeriesSpec fvs)),
                                         ("BTLS", .arr (claimFlatSeriesSpec fvs))]),
     ("Load/Performance", .obj [("ATLS", .arr (claimFlatSeriesSpec fvs)),
                                ("BTLS", .arr (claimFlatSeriesSpec fvs))]),
     ("E2E Test Coverage", .arr (claimFlatSeriesSpec fvs)),
     ("Automation Test Coverage", .arr (claimFlatSeriesSpec fvs)),
     ("Unit Test Coverage", .arr (claimFlatSeriesSpec fvs)),
     ("Defect Closure Rate", .arr (claimFlatSeriesSpec fvs)),
     ("Regression Issues", .arr (claimFlatSeriesSpec fvs)),
     ("Customer Specific Testing (UAT)", .obj
        [("RBS", .arr (fvs.map specUatPoint)),
         ("Tesco", .arr (fvs.map specUatPoint)),
         ("Belk", .arr (fvs.map specUatPoint))])])]

theorem enumFrom_map_defaultValuePoint (n : ℕ) (hn : n ≠ 0) (l : List String) :
    (List.enumFrom n l).map (fun p => defaultValuePoint p.1 p.2) =
      l.map specLaterPoint := by
  induction l generalizing n with
  | nil => rfl
  | cons v rest ih =>
      rw [List.enumFrom_cons, List.map_cons, List.map_cons,
          ih (n + 1) (Nat.succ_ne_zero n)]
      rw [show defaultValuePoint n v = specLaterPoint v by
        rw [defaultValuePoint, specLaterPoint, if_neg hn]]

theorem defaultValueSeries_eq_spec (fvs : List String) :
    defaultValueSeries fvs = .arr (claimFlatSeriesSpec fvs) := by
  cases fvs with
  | nil => rfl
  | cons v rest =>
      rw [defaultValueSeries, claimFlatSeriesSpec,
          show (v :: rest).enum = (0, v) :: rest.enumFrom 1 from rfl,
          List.map_cons, enumFrom_map_defaultValuePoint 1 one_ne_zero rest]
      rfl

theorem defaultUatSeries_eq_spec (fvs : List String) :
    defaultUatSeries fvs = .arr (fvs.map specUatPoint) := rfl

/-- The synthesized fallback document is exactly the document the claim
describes. -/
theorem default_json_eq_claimDefaultDoc (fvs : List String) :
    default_json fvs = claimDefaultDoc fvs := by
  rw [default_json, defaultMetricsEntries_eq, claimDefaultDoc,
      groupDefault, uatGroupDefault, defaultValueSeries_eq_spec,
      defaultUatSeries_eq_spec]

/-! ### Permutation and annotation lemmas -/

theorem insertLe_perm (le : α → α → Bool) (a : α) (l : List α) :
    List.Perm (insertLe le a l) (a :: l) := by
  induction l with
  | nil => exact List.Perm.refl _
  | cons b t ih =>
      rw [insertLe]
      by_cases h : le a b = true
      · rw [if_pos h]
      · rw [if_neg h]
        exact (List.Perm.cons b ih).trans (List.Perm.swap a b t)

theorem sortLe_perm (le : α → α → Bool) (l : List α) : List.Perm (sortLe le l) l := by
  induction l with
  | nil => exact List.Perm.refl _
  | cons a t ih =>
      rw [sortLe]
      exact (insertLe_perm le a (sortLe le t)).trans (List.Perm.cons a ih)

theorem mem_restoreIdx {x : α} {l : List (ℕ × α)} (h : x ∈ restoreIdx l) :
    ∃ i, (i, x) ∈ l := by
  rw [restoreIdx] at h
  obtain ⟨p, hp, rfl⟩ := List.mem_map.mp h
  exact ⟨p.1, (sortLe_perm _ l).mem_iff.mp hp⟩

theorem mem_sortIdxByKey {p : ℕ × α} {key : α → String} {xs : List α}
    (h : p ∈ sortIdxByKey key xs) : p ∈ xs.enum :=
  (sortLe_perm _ xs.enum).mem_iff.mp h

theorem annotateValueItemsSorted_trend_some {prev : Option ℚ}
    {l : List (ℕ × MetricPoint)} {x : ℕ × MetricPoint}
    (h : x ∈ annotateValueItemsSorted prev l) : x.2.trend ≠ none := by
  induction l generalizing prev with
  | nil => simp [annotateValueItemsSorted] at h
  | cons hd t ih =>
      obtain ⟨i, p⟩ := hd
      simp only [annotateValueItemsSorted] at h
      rcases List.mem_cons.mp h with h | h
      · subst h
        simp
      · exact ih h

theorem annotateUatItemsSorted_fields {prev : Option (ℚ × ℚ)}
    {l : List (ℕ × UatPoint)} {x : ℕ × UatPoint}
    (h : x ∈ annotateUatItemsSorted prev l) :
    x.2.trend ≠ none ∧
      x.2.pass_rate =
        some (roundQ1 (uatPassRate x.2.pass_count x.2.fail_count)) := by
  induction l generalizing prev with
  | nil => simp [annotateUatItemsSorted] at h
  | cons hd t ih =>
      obtain ⟨i, p⟩ := hd
      simp only [annotateUatItemsSorted] at h
      rcases List.mem_cons.mp h with h | h
      · subst h
        simp
      · exact ih h

theorem annotateValueSeries_trend_some {xs : List MetricPoint} {p : MetricPoint}
    (h : p ∈ annotateValueSeries xs) : p.trend ≠ none := by
  rw [annotateValueSeries] at h
  obtain ⟨i, hi⟩ := mem_restoreIdx h
  exact annotateValueItemsSorted_trend_some (x := (i, p)) hi

theorem annotateUatSeries_fields {xs : List UatPoint} {p : UatPoint}
    (h : p ∈ annotateUatSeries xs) :
    p.trend ≠ none ∧
      p.pass_rate = some (roundQ1 (uatPassRate p.pass_count p.fail_count)) := by
  rw [annotateUatSeries] at h
  obtain ⟨i, hi⟩ := mem_restoreIdx h
  exact annotateUatItemsSorted_fields (x := (i, p)) hi

theorem annotatedSortedValueSeries_head {xs : List MetricPoint} {p : MetricPoint}
    (h : (annotatedSortedValueSeries xs).head? = some p) :
    p.trend = some "→" := by
  rw [annotatedSortedValueSeries] at h
  cases hs : sortIdxByKey MetricPoint.version xs with
  | nil => rw [hs] at h; simp [annotateValueItemsSorted] at h
  | cons hd t =>
      obtain ⟨i, q⟩ := hd
      rw [hs] at h
      simp only [annotateValueItemsSorted] at h
      simp at h
      rw [← h]

theorem annotatedSortedUatSeries_head {xs : List UatPoint} {p : UatPoint}
    (h : (annotatedSortedUatSeries xs).head? = some p) :
    p.trend = some "→" := by
  rw [annotatedSortedUatSeries] at h
  cases hs : sortIdxByKey UatPoint.version xs with
  | nil => rw [hs] at h; simp [annotateUatItemsSorted] at h
  | cons hd t =>
      obtain ⟨i, q⟩ := hd
      rw [hs] at h
      simp only [annotateUatItemsSorted] at h
      simp at h
      rw [← h]

theorem annotateValueItemsSorted_getElem?_succ :
    ∀ (l : List (ℕ × MetricPoint)) (prev : Option ℚ) (n : ℕ)
      {r0 r1 : ℕ × MetricPoint},
      (annotateValueItemsSorted prev l)[n]? = some r0 →
      (annotateValueItemsSorted prev l)[n + 1]? = some r1 →
      r1.2.trend = some (if r1.2.value = 0 ∨ r0.2.value = 0 then "→"
        else flatTrendMark r0.2.value r1.2.value)
  | [], prev, n, r0, r1, h0, h1 => by
      simp [annotateValueItemsSorted] at h0
  | (i, p) :: t, prev, 0, r0, r1, h0, h1 => by
      simp only [annotateValueItemsSorted] at h0 h1
      rw [show (0 : ℕ) + 1 = 1 from rfl] at h1
      simp only [List.getElem?_cons_zero, Option.some.injEq] at h0
      rw [List.getElem?_cons_succ] at h1
      cases t with
      | nil => simp [annotateValueItemsSorted] at h1
      | cons hd t2 =>
          obtain ⟨i2, q⟩ := hd
          simp only [annotateValueItemsSorted, List.getElem?_cons_zero,
            Option.some.injEq] at h1
          subst h0
          subst h1
          rfl
  | (i, p) :: t, prev, n + 1, r0, r1, h0, h1 => by
      simp only [annotateValueItemsSorted, List.getElem?_cons_succ] at h0 h1
      exact annotateValueItemsSorted_getElem?_succ t (some p.value) n h0 h1

theorem annotateUatItemsSorted_getElem?_succ :
    ∀ (l : List (ℕ × UatPoint)) (prev : Option (ℚ × ℚ)) (n : ℕ)
      {r0 r1 : ℕ × UatPoint},
      (annotateUatItemsSorted prev l)[n]? = some r0 →
      (annotateUatItemsSorted prev l)[n + 1]? = some r1 →
      r1.2.trend = some (uatTrendMark r0.2.pass_count r0.2.fail_count
        r1.2.pass_count r1.2.fail_count)
  | [], prev, n, r0, r1, h0, h1 => by
      simp [annotateUatItemsSorted] at h0
  | (i, p) :: t, prev, 0, r0, r1, h0, h1 => by
      simp only [annotateUatItemsSorted] at h0 h1
      rw [show (0 : ℕ) + 1 = 1 from rfl] at h1
      simp only [List.getElem?_cons_zero, Option.some.injEq] at h0
      rw [List.getElem?_cons_succ] at h1
      cases t with
      | nil => simp [annotateUatItemsSorted] at h1
      | cons hd t2 =>
          obtain ⟨i2, q⟩ := hd
          simp only [annotateUatItemsSorted, List.getElem?_cons_zero,
            Option.some.injEq] at h1
          subst h0
          subst h1
          rfl
  | (i, p) :: t, prev, n + 1, r0, r1, h0, h1 => by
      simp only [annotateUatItemsSorted, List.getElem?_cons_succ] at h0 h1
      exact annotateUatItemsSorted_getElem?_succ t (some (p.pass_count, p.fail_count)) n h0 h1

theorem annotatedSortedValueSeries_trend_chain {xs : List MetricPoint} {n : ℕ}
    {q0 q1 : MetricPoint}
    (h0 : (annotatedSortedValueSeries xs)[n]? = some q0)
    (h1 : (annotatedSortedValueSeries xs)[n + 1]? = some q1) :
    q1.trend = some (if q1.value = 0 ∨ q0.value = 0 then "→"
      else flatTrendMark q0.value q1.value) := by
  rw [annotatedSortedValueSeries, List.getElem?_map] at h0 h1
  obtain ⟨r0, hr0, hq0⟩ := Option.map_eq_some'.mp h0
  obtain ⟨r1, hr1, hq1⟩ := Option.map_eq_some'.mp h1
  subst hq0
  subst hq1
  exact annotateValueItemsSorted_getElem?_succ _ none n hr0 hr1

theorem annotatedSortedUatSeries_trend_chain {xs : List UatPoint} {n : ℕ}
    {q0 q1 : UatPoint}
    (h0 : (annotatedSortedUatSeries xs)[n]? = some q0)
    (h1 : (annotatedSortedUatSeries xs)[n + 1]? = some q1) :
    q1.trend = some (uatTrendMark q0.pass_count q0.fail_count
      q1.pass_count q1.fail_count) := by
  rw [annotatedSortedUatSeries, List.getElem?_map] at h0 h1
  obtain ⟨r0, hr0, hq0⟩ := Option.map_eq_some'.mp h0
  obtain ⟨r1, hr1, hq1⟩ := Option.map_eq_some'.mp h1
  subst hq0
  subst hq1
  exact annotateUatItemsSorted_getElem?_succ _ none n hr0 hr1

/-! ### Validator elimination lemmas -/

/-- Lookup of a metric name under the candidate's `metrics` dictionary. -/
def mLookup (j : Json) (name : String) : Option Json :=
  (metricsData? j).bind fun md => md.lookup name

/-- The items of the series belonging to a metric name, across the relevant
sub-series: both ATLS/BTLS lists for the grouped metrics, the three client
lists for UAT, the list itself for flat metrics. -/
def arrItems : Option Json → List Json
  | some (.arr xs) => xs
  | _ => []

/-- All points of the named metric in a candidate document. -/
def seriesItemsOf (j : Json) (name : String) : List Json :=
  match mLookup j name with
  | none => []
  | some v =>
      if atlsBtlsNames.contains name || name = "Load/Performance" then
        arrItems (v.lookup "ATLS") ++ arrItems (v.lookup "BTLS")
      else if name = "Customer Specific Testing (UAT)" then
        arrItems (v.lookup "RBS") ++ arrItems (v.lookup "Tesco") ++
          arrItems (v.lookup "Belk")
      else
        match v with
        | .arr xs => xs
        | _ => []

theorem validate_true_elim {j : Json} (hv : validate_metrics j = true) :
    ∃ md, metricsData? j = some md ∧
      ∀ name ∈ EXPECTED_METRICS, checkMetricEntry md name = true := by
  rw [validate_metrics] at hv
  cases h : metricsData? j with
  | none => rw [h] at hv; cases hv
  | some md =>
      rw [h] at hv
      refine ⟨md, rfl, ?_⟩
      intro name hname
      exact List.all_eq_true.mp hv name hname

theorem checkValueItem_status {it : Json} {s : String}
    (h : checkValueItem it = true)
    (hst : it.lookup "status" = some (.str s)) :
    STATUS_VALUES.contains s = true := by
  rw [checkValueItem, hst] at h
  cases hver : it.lookup "version" with
  | none => rw [hver] at h; cases h
  | some ver =>
      cases hval : it.lookup "value" with
      | none => rw [hver, hval] at h; cases h
      | some val =>
          rw [hver, hval] at h
          simp only [Bool.and_eq_true] at h
          exact h.2

theorem checkUatItem_status {it : Json} {s : String}
    (h : checkUatItem it = true)
    (hst : it.lookup "status" = some (.str s)) :
    STATUS_VALUES.contains s = true := by
  rw [checkUatItem, hst] at h
  cases hver : it.lookup "version" with
  | none => rw [hver] at h; cases h
  | some ver =>
      cases hpc : it.lookup "pass_count" with
      | none => rw [hver, hpc] at h; cases h
      | some pc =>
          cases hfc : it.lookup "fail_count" with
          | none => rw [hver, hpc, hfc] at h; cases h
          | some fc =>
              rw [hver, hpc, hfc] at h
              simp only [Bool.and_eq_true] at h
              exact h.2

theorem checkValueList_arr_all {a : Json} (h : checkValueList a = true) :
    ∃ xs, a = .arr xs ∧ ∀ it ∈ xs, checkValueItem it = true := by
  cases a with
  | arr xs =>
      refine ⟨xs, rfl, ?_⟩
      rw [checkValueList] at h
      exact fun it hit => List.all_eq_true.mp h it hit
  | null => cases h
  | bool b => cases h
  | num q => cases h
  | str s => cases h
  | obj kvs => cases h

theorem checkUatList_arr_all {a : Json} (h : checkUatList a = true) :
    ∃ xs, a = .arr xs ∧ ∀ it ∈ xs, checkUatItem it = true := by
  cases a with
  | arr xs =>
      refine ⟨xs, rfl, ?_⟩
      rw [checkUatList] at h
      exact fun it hit => List.all_eq_true.mp h it hit
  | null => cases h
  | bool b => cases h
  | num q => cases h
  | str s => cases h
  | obj kvs => cases h

theorem checkMetricEntry_grouped {md v : Json} {name : String}
    (hc : (atlsBtlsNames.contains name || name = "Load/Performance") = true)
    (hl : md.lookup name = some v)
    (hk : checkMetricEntry md name = true) :
    ∃ a b, v.lookup "ATLS" = some a ∧ v.lookup "BTLS" = some b ∧
      checkValueList a = true ∧ checkValueList b = true := by
  simp only [checkMetricEntry, hl] at hk
  rw [if_pos hc] at hk
  cases ha : v.lookup "ATLS" with
  | none => rw [ha] at hk; cases hb : v.lookup "BTLS" <;> rw [hb] at hk <;> cases hk
  | some a =>
      cases hb : v.lookup "BTLS" with
      | none => rw [ha, hb] at hk; cases hk
      | some b =>
          rw [ha, hb] at hk
          simp only [Bool.and_eq_true] at hk
          exact ⟨a, b, rfl, rfl, hk.1, hk.2⟩

theorem checkMetricEntry_uat {md v : Json} {name : String}
    (hc : (atlsBtlsNames.contains name || name = "Load/Performance") = false)
    (hc2 : name = "Customer Specific Testing (UAT)")
    (hl : md.lookup name = some v)
    (hk : checkMetricEntry md name = true) :
    ∃ r t bl, v.lookup "RBS" = some r ∧ v.lookup "Tesco" = some t ∧
      v.lookup "Belk" = some bl ∧ checkUatList r = true ∧
      checkUatList t = true ∧ checkUatList bl = true := by
  simp only [checkMetricEntry, hl] at hk
  rw [if_neg (by rw [hc]; exact Bool.false_ne_true), if_pos hc2] at hk
  cases hr : v.lookup "RBS" with
  | none =>
      rw [hr] at hk
      cases ht : v.lookup "Tesco" <;> cases hb : v.lookup "Belk" <;>
        rw [ht, hb] at hk <;> cases hk
  | some r =>
      cases ht : v.lookup "Tesco" with
      | none =>
          rw [hr, ht] at hk
          cases hb : v.lookup "Belk" <;> rw [hb] at hk <;> cases hk
      | some t =>
          cases hb : v.lookup "Belk" with
          | none => rw [hr, ht, hb] at hk; cases hk
          | some bl =>
              rw [hr, ht, hb] at hk
              simp only [Bool.and_eq_true] at hk
              exact ⟨r, t, bl, rfl, rfl, rfl, hk.1.1, hk.1.2, hk.2⟩

theorem checkMetricEntry_flat {md v : Json} {name : String}
    (hc : (atlsBtlsNames.contains name || name = "Load/Performance") = false)
    (hc2 : ¬(name = "Customer Specific Testing (UAT)"))
    (hl : md.lookup name = some v)
    (hk : checkMetricEntry md name = true) :
    checkValueList v = true := by
  simp only [checkMetricEntry, hl] at hk
  rw [if_neg (by rw [hc]; exact Bool.false_ne_true), if_neg hc2] at hk
  exact hk

theorem checkMetricEntry_of_lookup_none {md : Json} {name : String}
    (hl : md.lookup name = none) : checkMetricEntry md name = false := by
  simp only [checkMetricEntry, hl]

/-! ### Claim theorems -/

/-- C1: for every raw text (i.e. every outcome of the three abstracted parse
tiers) and every list of fallback version strings, including the empty list,
`clean_json_output` returns a document accepted by `validate_metrics`; being
a total function of the parse outcomes, it never raises. -/
theorem claim_C1 (tier1 tier2 tier3 : Option Json) (fvs : List String) :
    validate_metrics (clean_json_output tier1 tier2 tier3 fvs) = true :=
  validate_metrics_clean_json_output tier1 tier2 tier3 fvs

theorem acceptTier_eq_none {x : Option Json}
    (h : ∀ d, x = some d → validate_metrics d = false) : acceptTier x = none := by
  cases x with
  | none => rfl
  | some e =>
      rw [acceptTier, if_neg]
      rw [h e rfl]
      exact Bool.false_ne_true

theorem clean_json_output_of_tiers_fail {t1 t2 t3 : Option Json}
    {fvs : List String}
    (h1 : ∀ d, t1 = some d → validate_metrics d = false)
    (h2 : ∀ d, t2 = some d → validate_metrics d = false)
    (h3 : ∀ d, t3 = some d → validate_metrics d = false) :
    clean_json_output t1 t2 t3 fvs = default_json fvs := by
  rw [clean_json_output, acceptTier_eq_none h1, acceptTier_eq_none h2,
      acceptTier_eq_none h3]

/-- C2: when every tier fails (its parse fails outright or only yields
documents rejected by the validator), `clean_json_output` returns exactly the
default document the claim describes — flat metrics get one point per
version, value 10 for the first version and 0 afterwards, status NEEDS
REVIEW; the grouped metrics get identical ATLS and BTLS copies of that
series; the UAT metric gets `pass_count` 10 / `fail_count` 0 per client and
version — and any two such calls with identical fallback versions yield
identical documents. -/
theorem claim_C2 (t1 t2 t3 u1 u2 u3 : Option Json) (fvs : List String)
    (h1 : ∀ d, t1 = some d → validate_metrics d = false)
    (h2 : ∀ d, t2 = some d → validate_metrics d = false)
    (h3 : ∀ d, t3 = some d → validate_metrics d = false)
    (h4 : ∀ d, u1 = some d → validate_metrics d = false)
    (h5 : ∀ d, u2 = some d → validate_metrics d = false)
    (h6 : ∀ d, u3 = some d → validate_metrics d = false) :
    clean_json_output t1 t2 t3 fvs = claimDefaultDoc fvs ∧
    clean_json_output t1 t2 t3 fvs = clean_json_output u1 u2 u3 fvs := by
  have e1 : clean_json_output t1 t2 t3 fvs = default_json fvs :=
    clean_json_output_of_tiers_fail h1 h2 h3
  have e2 : clean_json_output u1 u2 u3 fvs = default_json fvs :=
    clean_json_output_of_tiers_fail h4 h5 h6
  refine ⟨?_, ?_⟩
  · rw [e1, default_json_eq_claimDefaultDoc]
  · rw [e1, e2]

theorem claim_C2_witness :
    clean_json_output none none none ["25.1", "25.2"] =
        claimDefaultDoc ["25.1", "25.2"] ∧
    clean_json_output none none none ["25.1", "25.2"] =
        clean_json_output none none none ["25.1", "25.2"] :=
  claim_C2 none none none none none none ["25.1", "25.2"]
    (fun _ h => Option.noConfusion h) (fun _ h => Option.noConfusion h)
    (fun _ h => Option.noConfusion h) (fun _ h => Option.noConfusion h)
    (fun _ h => Option.noConfusion h) (fun _ h => Option.noConfusion h)

/-- C3: on a two-point flat series in sorted version order, the annotator
gives the second point `→` for values 100 then 100.5 (0.5% change, below the
1% threshold), `↑ (5.0%)` for 100 then 105, and `↓ (6.0%)` for 100 then 94 —
relative percent change with the 0.01 absolute and 1% relative thresholds,
formatted to one decimal place. -/
theorem claim_C3 :
    (annotateValueSeries
        [{version := "1", value := 100, status := "ON TRACK"},
         {version := "2", value := 201/2, status := "ON TRACK"}]).map
      (fun p => p.trend) = [some "→", some "→"] ∧
    (annotateValueSeries
        [{version := "1", value := 100, status := "ON TRACK"},
         {version := "2", value := 105, status := "ON TRACK"}]).map
      (fun p => p.trend) = [some "→", some "↑ (5.0%)"] ∧
    (annotateValueSeries
        [{version := "1", value := 100, status := "ON TRACK"},
         {version := "2", value := 94, status := "ON TRACK"}]).map
      (fun p => p.trend) = [some "→", some "↓ (6.0%)"] := by
  refine ⟨?_, ?_, ?_⟩
  · have hs : sortIdxByKey MetricPoint.version
        [{version := "1", value := 100, status := "ON TRACK"},
         {version := "2", value := 201/2, status := "ON TRACK"}] =
        [(0, {version := "1", value := 100, status := "ON TRACK"}),
         (1, {version := "2", value := 201/2, status := "ON TRACK"})] := by
      with_unfolding_all decide
    have ht : flatTrendMark 100 (201/2) = "→" := by with_unfolding_all decide
    rw [annotateValueSeries, hs]
    simp only [annotateValueItemsSorted]
    rw [if_neg (by norm_num : ¬((201/2 : ℚ) = 0 ∨ (100 : ℚ) = 0)), ht]
    decide
  · have hs : sortIdxByKey MetricPoint.version
        [{version := "1", value := 100, status := "ON TRACK"},
         {version := "2", value := 105, status := "ON TRACK"}] =
        [(0, {version := "1", value := 100, status := "ON TRACK"}),
         (1, {version := "2", value := 105, status := "ON TRACK"})] := by
      with_unfolding_all decide
    have ht : flatTrendMark 100 105 = "↑ (5.0%)" := by with_unfolding_all decide
    rw [annotateValueSeries, hs]
    simp only [annotateValueItemsSorted]
    rw [if_neg (by norm_num : ¬((105 : ℚ) = 0 ∨ (100 : ℚ) = 0)), ht]
    decide
  · have hs : sortIdxByKey MetricPoint.version
        [{version := "1", value := 100, status := "ON TRACK"},
         {version := "2", value := 94, status := "ON TRACK"}] =
        [(0, {version := "1", value := 100, status := "ON TRACK"}),
         (1, {version := "2", value := 94, status := "ON TRACK"})] := by
      with_unfolding_all decide
    have ht : flatTrendMark 100 94 = "↓ (6.0%)" := by with_unfolding_all decide
    rw [annotateValueSeries, hs]
    simp only [annotateValueItemsSorted]
    rw [if_neg (by norm_num : ¬((94 : ℚ) = 0 ∨ (100 : ℚ) = 0)), ht]
    decide

/-- C7 amended: the `ValueError("Invalid or incomplete metrics data")` branch
of `process_task_output` is indeed unreachable, because `clean_json_output`
always returns a validated document; however (see the counterexample) the
annotation loop itself can still raise on validated documents with extra
keys under `metrics`, so the function is not exception-free. -/
theorem claim_C7_amended (t1 t2 t3 : Option Json) (fvs : List String) :
    process_task_output t1 t2 t3 fvs ≠ Except.error PTOError.invalidMetrics := by
  rw [process_task_output]
  rw [if_pos (validate_metrics_clean_json_output t1 t2 t3 fvs)]
  cases annotateJsonDoc (clean_json_output t1 t2 t3 fvs) with
  | ok d => simp
  | error e => simp

/-- A document accepted by `validate_metrics` (it contains all eleven valid
metrics) with one extra key under `metrics` whose value is a bare number. -/
def extraKeyDoc : Json :=
  Json.obj [("metrics",
    Json.obj (defaultMetricsEntries ["1"] ++ [("Extra", Json.num 5)]))]

/-- C7 as stated is false: on the raw output that parses to `extraKeyDoc`
(which passes validation), the annotation loop reaches the extra key, whose
value is not a list, and `sorted` raises a `TypeError` — so
`process_task_output` does raise for some inputs. -/
theorem claim_C7_counterexample :
    validate_metrics extraKeyDoc = true ∧
    process_task_output (some extraKeyDoc) none none ["1"] =
      Except.error (PTOError.trendError "TypeError: metric data is not a list") :=
  ⟨by decide, by with_unfolding_all rfl⟩

/-- C4 as stated is false on the code in two ways.  First, the annotator
gives `→` whenever either point's total count is zero, even when the
pass-rate difference is above the thresholds: for the series (80/20 then 0/0)
the pass rates are 80.0 and 0, an 80-point drop, yet the second point gets
`→`, not the `↓ (80.0%)` the claim requires.  Second, the stored `pass_rate`
is 0 whenever `pass_count + fail_count ≤ 0` (not only when the denominator is
zero): for `pass_count = -10, fail_count = 5` the claim's formula gives
`-10 / -5 × 100 = 200`, but the code stores 0. -/
theorem claim_C4_counterexample :
    ((annotatedSortedUatSeries
        [{version := "1", pass_count := 80, fail_count := 20, status := "ON TRACK"},
         {version := "2", pass_count := 0, fail_count := 0, status := "ON TRACK"}])[1]?).map
      (fun q => q.trend) = some (some "→") ∧
    (some "→" : Option String) ≠ some "↓ (80.0%)" ∧
    (annotateUatSeries
        [{version := "1", pass_count := -10, fail_count := 5, status := "ON TRACK"}]).map
      (fun q => q.pass_rate) = [some 0] ∧
    roundQ1 ((-10 : ℚ) / (-10 + 5) * 100) = 200 ∧
    (some (0 : ℚ) : Option ℚ) ≠ some 200 := by
  refine ⟨?_, by decide, by with_unfolding_all decide, by with_unfolding_all decide,
    by with_unfolding_all decide⟩
  have hs : sortIdxByKey UatPoint.version
      [{version := "1", pass_count := 80, fail_count := 20, status := "ON TRACK"},
       {version := "2", pass_count := 0, fail_count := 0, status := "ON TRACK"}] =
      [(0, {version := "1", pass_count := 80, fail_count := 20, status := "ON TRACK"}),
       (1, {version := "2", pass_count := 0, fail_count := 0, status := "ON TRACK"})] := by
    with_unfolding_all decide
  have ht : uatTrendMark 80 20 0 0 = "→" := by with_unfolding_all decide
  rw [annotatedSortedUatSeries, hs]
  simp only [annotateUatItemsSorted]
  rw [ht]
  simp

/-- C4 amended: the annotator stores on every point
`pass_rate = round1(pass_count / (pass_count + fail_count) × 100)` when the
total count is positive and `round1 0 = 0` otherwise (so also 0 for a
negative total, not only a zero denominator); the first point in
version-sorted order gets trend `→`; every later point's trend is `→`
whenever either adjacent point's total count is exactly zero or the absolute
difference of the unrounded consecutive pass rates is below 0.01 or below 1
percentage point, and otherwise a directional arrow with the magnitude of
that difference formatted to one decimal place. -/
theorem claim_C4_amended (xs : List UatPoint) :
    (∀ q ∈ annotateUatSeries xs,
        q.pass_rate = some (roundQ1 (if 0 < q.pass_count + q.fail_count
          then q.pass_count / (q.pass_count + q.fail_count) * 100 else 0))) ∧
    (∀ q, (annotatedSortedUatSeries xs).head? = some q → q.trend = some "→") ∧
    (∀ (n : ℕ) (q0 q1 : UatPoint),
        (annotatedSortedUatSeries xs)[n]? = some q0 →
        (annotatedSortedUatSeries xs)[n + 1]? = some q1 →
        q1.trend = some (
          if q0.pass_count + q0.fail_count = 0 ∨ q1.pass_count + q1.fail_count = 0 ∨
             ratAbs (uatPassRate q1.pass_count q1.fail_count -
               uatPassRate q0.pass_count q0.fail_count) < 1/100 then "→"
          else if ratAbs (uatPassRate q1.pass_count q1.fail_count -
               uatPassRate q0.pass_count q0.fail_count) < 1 then "→"
          else if 0 < uatPassRate q1.pass_count q1.fail_count -
               uatPassRate q0.pass_count q0.fail_count then
            "↑ (" ++ fmtOneDec (ratAbs (uatPassRate q1.pass_count q1.fail_count -
              uatPassRate q0.pass_count q0.fail_count)) ++ "%)"
          else
            "↓ (" ++ fmtOneDec (ratAbs (uatPassRate q1.pass_count q1.fail_count -
              uatPassRate q0.pass_count q0.fail_count)) ++ "%)")) := by
  refine ⟨?_, ?_, ?_⟩
  · intro q hq
    exact (annotateUatSeries_fields hq).2
  · intro q hq
    exact annotatedSortedUatSeries_head hq
  · intro n q0 q1 h0 h1
    exact annotatedSortedUatSeries_trend_chain h0 h1

/-- The two-point input used to exhibit the amended C4 at a concrete case. -/
def uatWitnessInput : List UatPoint :=
  [{version := "1", pass_count := 0, fail_count := 0, status := "ON TRACK"},
   {version := "2", pass_count := 0, fail_count := 0, status := "ON TRACK"}]

/-- The first point of `uatWitnessInput` after annotation. -/
def uatWitnessP1 : UatPoint :=
  {version := "1", pass_count := 0, fail_count := 0, status := "ON TRACK",
   pass_rate := some 0, trend := some "→"}

/-- The second point of `uatWitnessInput` after annotation. -/
def uatWitnessP2 : UatPoint :=
  {version := "2", pass_count := 0, fail_count := 0, status := "ON TRACK",
   pass_rate := some 0, trend := some "→"}

theorem uatWitness_eval :
    annotateUatItemsSorted none (sortIdxByKey UatPoint.version uatWitnessInput) =
      [(0, uatWitnessP1), (1, uatWitnessP2)] := by
  have hs : sortIdxByKey UatPoint.version uatWitnessInput =
      [(0, {version := "1", pass_count := 0, fail_count := 0, status := "ON TRACK"}),
       (1, {version := "2", pass_count := 0, fail_count := 0, status := "ON TRACK"})] := by
    with_unfolding_all decide
  have hr : roundQ1 (uatPassRate 0 0) = 0 := by with_unfolding_all decide
  have htm : uatTrendMark 0 0 0 0 = "→" := by with_unfolding_all decide
  rw [hs]
  simp only [annotateUatItemsSorted]
  rw [hr, htm]
  rfl

theorem claim_C4_amended_witness :
    uatWitnessP1.pass_rate =
      some (roundQ1 (if 0 < uatWitnessP1.pass_count + uatWitnessP1.fail_count
        then uatWitnessP1.pass_count /
          (uatWitnessP1.pass_count + uatWitnessP1.fail_count) * 100 else 0)) ∧
    uatWitnessP1.trend = some "→" ∧
    uatWitnessP2.trend = some (
      if uatWitnessP1.pass_count + uatWitnessP1.fail_count = 0 ∨
         uatWitnessP2.pass_count + uatWitnessP2.fail_count = 0 ∨
         ratAbs (uatPassRate uatWitnessP2.pass_count uatWitnessP2.fail_count -
           uatPassRate uatWitnessP1.pass_count uatWitnessP1.fail_count) < 1/100 then "→"
      else if ratAbs (uatPassRate uatWitnessP2.pass_count uatWitnessP2.fail_count -
           uatPassRate uatWitnessP1.pass_count uatWitnessP1.fail_count) < 1 then "→"
      else if 0 < uatPassRate uatWitnessP2.pass_count uatWitnessP2.fail_count -
           uatPassRate uatWitnessP1.pass_count uatWitnessP1.fail_count then
        "↑ (" ++ fmtOneDec (ratAbs (uatPassRate uatWitnessP2.pass_count
          uatWitnessP2.fail_count - uatPassRate uatWitnessP1.pass_count
          uatWitnessP1.fail_count)) ++ "%)"
      else
        "↓ (" ++ fmtOneDec (ratAbs (uatPassRate uatWitnessP2.pass_count
          uatWitnessP2.fail_count - uatPassRate uatWitnessP1.pass_count
          uatWitnessP1.fail_count)) ++ "%)") := by
  refine ⟨?_, ?_, ?_⟩
  · refine (claim_C4_amended uatWitnessInput).1 uatWitnessP1 ?_
    rw [annotateUatSeries, uatWitness_eval]
    decide
  · refine (claim_C4_amended uatWitnessInput).2.1 uatWitnessP1 ?_
    rw [annotatedSortedUatSeries, uatWitness_eval]
    rfl
  · refine (claim_C4_amended uatWitnessInput).2.2 0 uatWitnessP1 uatWitnessP2 ?_ ?_
    · rw [annotatedSortedUatSeries, uatWitness_eval]
      rfl
    · rw [annotatedSortedUatSeries, uatWitness_eval]
      rfl

/-- C5: on any validated document (typed form), after the annotation phase
every point of every series — each ATLS/BTLS sub-series, each UAT client
series, each flat series — carries a trend string, and in each series the
point that is first in version-sorted order has trend `→`. -/
theorem claim_C5 (d : MetricsDocument) :
    (∀ s ∈ flatSeriesOf (annotateDocument d), ∀ p ∈ s, p.trend ≠ none) ∧
    (∀ s ∈ uatSeriesOf (annotateDocument d), ∀ p ∈ s, p.trend ≠ none) ∧
    (∀ s ∈ flatSeriesOf d, ∀ p, (annotatedSortedValueSeries s).head? = some p →
        p.trend = some "→") ∧
    (∀ s ∈ uatSeriesOf d, ∀ p, (annotatedSortedUatSeries s).head? = some p →
        p.trend = some "→") := by
  refine ⟨?_, ?_, ?_, ?_⟩
  · intro s hs p hp
    simp only [flatSeriesOf, annotateDocument, List.mem_append, List.map_map,
      List.mem_map, Function.comp] at hs
    rcases hs with (⟨g, _, rfl⟩ | ⟨g, _, rfl⟩) | ⟨f, _, rfl⟩
    · exact annotateValueSeries_trend_some hp
    · exact annotateValueSeries_trend_some hp
    · exact annotateValueSeries_trend_some hp
  · intro s hs p hp
    simp only [uatSeriesOf, annotateDocument, List.mem_cons,
      List.not_mem_nil, or_false] at hs
    rcases hs with rfl | rfl | rfl
    · exact (annotateUatSeries_fields hp).1
    · exact (annotateUatSeries_fields hp).1
    · exact (annotateUatSeries_fields hp).1
  · intro s _ p hp
    exact annotatedSortedValueSeries_head hp
  · intro s _ p hp
    exact annotatedSortedUatSeries_head hp

/-- A small validated document with one grouped metric, one populated UAT
client series and one flat metric, used to instantiate C5. -/
def witnessDoc : MetricsDocument :=
  { groupedMetrics := [("Open ALL RRR Defects",
      [{version := "1", value := 100, status := "ON TRACK"}],
      [{version := "1", value := 5, status := "ON TRACK"}])],
    uatRBS := [{version := "1", pass_count := 10, fail_count := 0,
                status := "ON TRACK"}],
    uatTesco := [],
    uatBelk := [],
    flatMetrics := [("E2E Test Coverage",
      [{version := "1", value := 50, status := "ON TRACK"}])] }

/-- The flat point of `witnessDoc`'s grouped ATLS series, before annotation. -/
def flatPtIn : MetricPoint := {version := "1", value := 100, status := "ON TRACK"}

/-- The same point after annotation. -/
def flatPtOut : MetricPoint :=
  {version := "1", value := 100, status := "ON TRACK", trend := some "→"}

/-- The UAT point of `witnessDoc`'s RBS series, before annotation. -/
def uatPtIn : UatPoint :=
  {version := "1", pass_count := 10, fail_count := 0, status := "ON TRACK"}

/-- The same point after annotation: pass rate 100.0, trend `→`. -/
def uatPtOut : UatPoint :=
  {version := "1", pass_count := 10, fail_count := 0, status := "ON TRACK",
   pass_rate := some 100, trend := some "→"}

theorem witnessUatAux_eval :
    annotateUatItemsSorted none (sortIdxByKey UatPoint.version [uatPtIn]) =
      [(0, uatPtOut)] := by
  have hs : sortIdxByKey UatPoint.version [uatPtIn] = [(0, uatPtIn)] := by
    with_unfolding_all decide
  have hr : roundQ1 (uatPassRate 10 0) = 100 := by with_unfolding_all decide
  rw [hs]
  simp only [annotateUatItemsSorted]
  rw [show uatPtIn.pass_count = 10 from rfl, show uatPtIn.fail_count = 0 from rfl, hr]
  rfl

theorem witnessUatSeries_eval : annotateUatSeries [uatPtIn] = [uatPtOut] := by
  rw [annotateUatSeries, witnessUatAux_eval]
  rfl

theorem witnessUatSorted_eval :
    annotatedSortedUatSeries [uatPtIn] = [uatPtOut] := by
  rw [annotatedSortedUatSeries, witnessUatAux_eval]
  rfl

theorem witnessFlatAux_eval :
    annotateValueItemsSorted none (sortIdxByKey MetricPoint.version [flatPtIn]) =
      [(0, flatPtOut)] := by
  have hs : sortIdxByKey MetricPoint.version [flatPtIn] = [(0, flatPtIn)] := by
    with_unfolding_all decide
  rw [hs]
  simp only [annotateValueItemsSorted]
  rfl

theorem witnessFlatSeries_eval : annotateValueSeries [flatPtIn] = [flatPtOut] := by
  rw [annotateValueSeries, witnessFlatAux_eval]
  rfl

theorem witnessFlatSorted_eval :
    annotatedSortedValueSeries [flatPtIn] = [flatPtOut] := by
  rw [annotatedSortedValueSeries, witnessFlatAux_eval]
  rfl

theorem claim_C5_witness :
    flatPtOut.trend ≠ none ∧
    uatPtOut.trend ≠ none ∧
    flatPtOut.trend = some "→" ∧
    uatPtOut.trend = some "→" := by
  refine ⟨?_, ?_, ?_, ?_⟩
  · refine (claim_C5 witnessDoc).1
      (annotateValueSeries [flatPtIn])
      (List.Mem.head _) flatPtOut ?_
    rw [witnessFlatSeries_eval]
    exact List.Mem.head _
  · refine (claim_C5 witnessDoc).2.1
      (annotateUatSeries [uatPtIn])
      (List.Mem.head _) uatPtOut ?_
    rw [witnessUatSeries_eval]
    exact List.Mem.head _
  · refine (claim_C5 witnessDoc).2.2.1 [flatPtIn]
      (List.Mem.head _) flatPtOut ?_
    rw [witnessFlatSorted_eval]
    rfl
  · refine (claim_C5 witnessDoc).2.2.2 [uatPtIn]
      (List.Mem.head _) uatPtOut ?_
    rw [witnessUatSorted_eval]
    rfl

theorem mLookup_some_elim {j v : Json} {name : String}
    {md : Json} (hmd : metricsData? j = some md)
    (hml : mLookup j name = some v) : md.lookup name = some v := by
  rw [mLookup, hmd] at hml
  exact hml

theorem seriesItems_grouped_check {j md v item : Json} {name : String}
    (hmd : metricsData? j = some md)
    (hcond : (atlsBtlsNames.contains name || name = "Load/Performance") = true)
    (hk : checkMetricEntry md name = true)
    (hml : mLookup j name = some v)
    (hitem : item ∈ arrItems (v.lookup "ATLS") ++ arrItems (v.lookup "BTLS")) :
    checkValueItem item = true := by
  obtain ⟨a, b, ha, hb, hca, hcb⟩ :=
    checkMetricEntry_grouped hcond (mLookup_some_elim hmd hml) hk
  obtain ⟨xs, rfl, hall⟩ := checkValueList_arr_all hca
  obtain ⟨ys, rfl, hallb⟩ := checkValueList_arr_all hcb
  rw [ha, hb] at hitem
  simp only [arrItems] at hitem
  rcases List.mem_append.mp hitem with h | h
  · exact hall _ h
  · exact hallb _ h

theorem seriesItems_uat_check {j md v item : Json} {name : String}
    (hmd : metricsData? j = some md)
    (hcond : (atlsBtlsNames.contains name || name = "Load/Performance") = false)
    (hcond2 : name = "Customer Specific Testing (UAT)")
    (hk : checkMetricEntry md name = true)
    (hml : mLookup j name = some v)
    (hitem : item ∈ arrItems (v.lookup "RBS") ++ arrItems (v.lookup "Tesco") ++
      arrItems (v.lookup "Belk")) :
    checkUatItem item = true := by
  obtain ⟨r, t, bl, hr, ht, hb, hcr, hct, hcb⟩ :=
    checkMetricEntry_uat hcond hcond2 (mLookup_some_elim hmd hml) hk
  obtain ⟨xs, rfl, hallr⟩ := checkUatList_arr_all hcr
  obtain ⟨ys, rfl, hallt⟩ := checkUatList_arr_all hct
  obtain ⟨zs, rfl, hallb⟩ := checkUatList_arr_all hcb
  rw [hr, ht, hb] at hitem
  simp only [arrItems] at hitem
  rcases List.mem_append.mp hitem with h | h
  · rcases List.mem_append.mp h with h2 | h2
    · exact hallr _ h2
    · exact hallt _ h2
  · exact hallb _ h

theorem seriesItems_flat_check {j md v item : Json} {name : String}
    (hmd : metricsData? j = some md)
    (hcond : (atlsBtlsNames.contains name || name = "Load/Performance") = false)
    (hcond2 : ¬(name = "Customer Specific Testing (UAT)"))
    (hk : checkMetricEntry md name = true)
    (hml : mLookup j name = some v)
    (hitem : item ∈ (match v with | Json.arr xs => xs | _ => ([] : List Json))) :
    checkValueItem item = true := by
  have hcv := checkMetricEntry_flat hcond hcond2 (mLookup_some_elim hmd hml) hk
  obtain ⟨xs, rfl, hall⟩ := checkValueList_arr_all hcv
  exact hall _ hitem

/-- C6: the validator rejects any candidate missing one of the eleven fixed
metric names under `metrics`, any candidate whose grouped metric lacks a
required sub-key (ATLS/BTLS, or a UAT client), and any candidate one of whose
points carries a status string outside the enumerated set; being a total
boolean function, it returns without raising on every input. -/
theorem claim_C6 (j : Json) :
    (∀ name, name ∈ EXPECTED_METRICS → mLookup j name = none →
        validate_metrics j = false) ∧
    (∀ name v, name ∈ atlsBtlsNames → mLookup j name = some v →
        (v.lookup "ATLS" = none ∨ v.lookup "BTLS" = none) →
        validate_metrics j = false) ∧
    (∀ v, mLookup j "Customer Specific Testing (UAT)" = some v →
        (v.lookup "RBS" = none ∨ v.lookup "Tesco" = none ∨
          v.lookup "Belk" = none) →
        validate_metrics j = false) ∧
    (∀ name item s, name ∈ EXPECTED_METRICS → item ∈ seriesItemsOf j name →
        item.lookup "status" = some (.str s) → STATUS_VALUES.contains s = false →
        validate_metrics j = false) := by
  refine ⟨?_, ?_, ?_, ?_⟩
  · intro name hname hml
    cases hv : validate_metrics j with
    | false => rfl
    | true =>
        exfalso
        obtain ⟨md, hmd, hall⟩ := validate_true_elim hv
        have hk := hall name hname
        rw [mLookup, hmd] at hml
        rw [checkMetricEntry_of_lookup_none hml] at hk
        exact Bool.false_ne_true hk
  · intro name v hname hml hnone
    cases hv : validate_metrics j with
    | false => rfl
    | true =>
        exfalso
        obtain ⟨md, hmd, hall⟩ := validate_true_elim hv
        have hname5 : name ∈ EXPECTED_METRICS := by
          fin_cases hname <;> decide
        have hcond : (atlsBtlsNames.contains name ||
            name = "Load/Performance") = true := by
          fin_cases hname <;> decide
        obtain ⟨a, b, ha, hb, _, _⟩ := checkMetricEntry_grouped hcond
          (mLookup_some_elim hmd hml) (hall name hname5)
        rcases hnone with hn | hn
        · rw [ha] at hn; cases hn
        · rw [hb] at hn; cases hn
  · intro v hml hnone
    cases hv : validate_metrics j with
    | false => rfl
    | true =>
        exfalso
        obtain ⟨md, hmd, hall⟩ := validate_true_elim hv
        obtain ⟨r, t, bl, hr, ht, hb, _, _, _⟩ := checkMetricEntry_uat
          (by decide) rfl (mLookup_some_elim hmd hml)
          (hall "Customer Specific Testing (UAT)" (by decide))
        rcases hnone with hn | hn | hn
        · rw [hr] at hn; cases hn
        · rw [ht] at hn; cases hn
        · rw [hb] at hn; cases hn
  · intro name item s hname hitem hst hbad
    cases hv : validate_metrics j with
    | false => rfl
    | true =>
        exfalso
        obtain ⟨md, hmd, hall⟩ := validate_true_elim hv
        have hk := hall name hname
        cases hml : mLookup j name with
        | none =>
            simp only [seriesItemsOf, hml] at hitem
            simp at hitem
        | some v =>
            simp only [seriesItemsOf, hml] at hitem
            by_cases hc : (atlsBtlsNames.contains name ||
                name = "Load/Performance") = true
            · rw [if_pos hc] at hitem
              have hci := seriesItems_grouped_check hmd hc hk hml hitem
              rw [checkValueItem_status hci hst] at hbad
              exact Bool.noConfusion hbad
            · have hcF : (atlsBtlsNames.contains name ||
                  name = "Load/Performance") = false := by
                revert hc
                cases atlsBtlsNames.contains name || decide
                  (name = "Load/Performance") <;> simp
              rw [if_neg hc] at hitem
              by_cases hc2 : name = "Customer Specific Testing (UAT)"
              · rw [if_pos hc2] at hitem
                have hci := seriesItems_uat_check hmd hcF hc2 hk hml hitem
                rw [checkUatItem_status hci hst] at hbad
                exact Bool.noConfusion hbad
              · rw [if_neg hc2] at hitem
                have hci := seriesItems_flat_check hmd hcF hc2 hk hml hitem
                rw [checkValueItem_status hci hst] at hbad
                exact Bool.noConfusion hbad

/-- A candidate with an empty `metrics` dictionary. -/
def c6MissingDoc : Json := Json.obj [("metrics", Json.obj [])]

/-- A candidate whose first grouped metric lacks the BTLS sub-key. -/
def c6BadGroupDoc : Json :=
  Json.obj [("metrics", Json.obj (setKey (defaultMetricsEntries ["1"])
    "Open ALL RRR Defects" (Json.obj [("ATLS", Json.arr [])])))]

/-- A candidate whose UAT metric lacks the Tesco client. -/
def c6BadUatDoc : Json :=
  Json.obj [("metrics", Json.obj (setKey (defaultMetricsEntries ["1"])
    "Customer Specific Testing (UAT)" (Json.obj [("RBS", Json.arr [])])))]

/-- A candidate with one flat point whose status is outside the enumerated
set. -/
def c6BadStatusDoc : Json :=
  Json.obj [("metrics", Json.obj (setKey (defaultMetricsEntries ["1"])
    "E2E Test Coverage" (Json.arr [Json.obj [("version", Json.str "1"),
      ("value", Json.num 1), ("status", Json.str "BOGUS")]])))]

theorem claim_C6_witness :
    validate_metrics c6MissingDoc = false ∧
    validate_metrics c6BadGroupDoc = false ∧
    validate_metrics c6BadUatDoc = false ∧
    validate_metrics c6BadStatusDoc = false := by
  refine ⟨?_, ?_, ?_, ?_⟩
  · exact (claim_C6 c6MissingDoc).1 "Open ALL RRR Defects" (by decide) rfl
  · exact (claim_C6 c6BadGroupDoc).2.1 "Open ALL RRR Defects"
      (Json.obj [("ATLS", Json.arr [])]) (by decide) rfl (Or.inr rfl)
  · exact (claim_C6 c6BadUatDoc).2.2.1 (Json.obj [("RBS", Json.arr [])]) rfl
      (Or.inr (Or.inl rfl))
  · exact (claim_C6 c6BadStatusDoc).2.2.2 "E2E Test Coverage"
      (Json.obj [("version", Json.str "1"), ("value", Json.num 1),
        ("status", Json.str "BOGUS")]) "BOGUS"
      (by decide) (List.Mem.head _) rfl (by decide)

/-- The option holds a dictionary carrying list-valued `ATLS` and `BTLS`
keys. -/
def hasGroupShape : Option Json → Bool
  | some v =>
      (match v.lookup "ATLS" with | some (.arr _) => true | _ => false) &&
      (match v.lookup "BTLS" with | some (.arr _) => true | _ => false)
  | none => false

/-- The option holds a dictionary carrying list-valued `RBS`, `Tesco` and
`Belk` keys. -/
def hasUatShape : Option Json → Bool
  | some v =>
      (match v.lookup "RBS" with | some (.arr _) => true | _ => false) &&
      (match v.lookup "Tesco" with | some (.arr _) => true | _ => false) &&
      (match v.lookup "Belk" with | some (.arr _) => true | _ => false)
  | none => false

/-- The option holds a plain list. -/
def isArrShape : Option Json → Bool
  | some (.arr _) => true
  | _ => false

/-- C10: in every document the validator accepts, exactly the first five
fixed metric names (which include "Load/Performance") carry the ATLS/BTLS
group shape, the UAT metric carries the three-client group shape, and the
remaining five names carry the flat-list shape; a document that gives one of
those five flat names a dictionary (e.g. an ATLS/BTLS group) is rejected. -/
theorem claim_C10 (j : Json) :
    (validate_metrics j = true →
      (∀ name ∈ atlsBtlsNames, hasGroupShape (mLookup j name) = true) ∧
      hasUatShape (mLookup j "Customer Specific Testing (UAT)") = true ∧
      (∀ name ∈ flatFiveNames, isArrShape (mLookup j name) = true)) ∧
    (∀ name ∈ flatFiveNames, ∀ kvs, mLookup j name = some (.obj kvs) →
      validate_metrics j = false) ∧
    atlsBtlsNames = ["Open ALL RRR Defects", "Open Security Defects",
      "All Open Defects (T-1)", "All Security Open Defects",
      "Load/Performance"] := by
  refine ⟨?_, ?_, by decide⟩
  · intro hv
    obtain ⟨md, hmd, hall⟩ := validate_true_elim hv
    refine ⟨?_, ?_, ?_⟩
    · intro name hname
      have hname11 : name ∈ EXPECTED_METRICS := by fin_cases hname <;> decide
      have hcond : (atlsBtlsNames.contains name ||
          name = "Load/Performance") = true := by fin_cases hname <;> decide
      have hk := hall name hname11
      cases hml : mLookup j name with
      | none =>
          exfalso
          rw [mLookup, hmd] at hml
          rw [checkMetricEntry_of_lookup_none hml] at hk
          exact Bool.noConfusion hk
      | some v =>
          obtain ⟨a, b, ha, hb, hca, hcb⟩ := checkMetricEntry_grouped hcond
            (mLookup_some_elim hmd hml) hk
          obtain ⟨xs, rfl, _⟩ := checkValueList_arr_all hca
          obtain ⟨ys, rfl, _⟩ := checkValueList_arr_all hcb
          simp only [hasGroupShape, ha, hb]
          rfl
    · have hk := hall "Customer Specific Testing (UAT)" (by decide)
      cases hml : mLookup j "Customer Specific Testing (UAT)" with
      | none =>
          exfalso
          rw [mLookup, hmd] at hml
          rw [checkMetricEntry_of_lookup_none hml] at hk
          exact Bool.noConfusion hk
      | some v =>
          obtain ⟨r, t, bl, hr, ht, hb, hcr, hct, hcb⟩ := checkMetricEntry_uat
            (by decide) rfl (mLookup_some_elim hmd hml) hk
          obtain ⟨xs, rfl, _⟩ := checkUatList_arr_all hcr
          obtain ⟨ys, rfl, _⟩ := checkUatList_arr_all hct
          obtain ⟨zs, rfl, _⟩ := checkUatList_arr_all hcb
          simp only [hasUatShape, hr, ht, hb]
          rfl
    · intro name hname
      have hname11 : name ∈ EXPECTED_METRICS := by fin_cases hname <;> decide
      have hcond : (atlsBtlsNames.contains name ||
          name = "Load/Performance") = false := by fin_cases hname <;> decide
      have hcond2 : ¬(name = "Customer Specific Testing (UAT)") := by
        fin_cases hname <;> decide
      have hk := hall name hname11
      cases hml : mLookup j name with
      | none =>
          exfalso
          rw [mLookup, hmd] at hml
          rw [checkMetricEntry_of_lookup_none hml] at hk
          exact Bool.noConfusion hk
      | some v =>
          have hcv := checkMetricEntry_flat hcond hcond2
            (mLookup_some_elim hmd hml) hk
          obtain ⟨xs, rfl, _⟩ := checkValueList_arr_all hcv
          rfl
  · intro name hname kvs hml
    cases hv : validate_metrics j with
    | false => rfl
    | true =>
        exfalso
        obtain ⟨md, hmd, hall⟩ := validate_true_elim hv
        have hname11 : name ∈ EXPECTED_METRICS := by fin_cases hname <;> decide
        have hcond : (atlsBtlsNames.contains name ||
            name = "Load/Performance") = false := by fin_cases hname <;> decide
        have hcond2 : ¬(name = "Customer Specific Testing (UAT)") := by
          fin_cases hname <;> decide
        have hcv := checkMetricEntry_flat hcond hcond2
          (mLookup_some_elim hmd hml) (hall name hname11)
        exact Bool.noConfusion hcv

/-- A document that gives the flat metric "E2E Test Coverage" a dictionary
(group) shape instead of a list. -/
def c10BadFlatDoc : Json :=
  Json.obj [("metrics", Json.obj (setKey (defaultMetricsEntries ["1"])
    "E2E Test Coverage" (Json.obj [("ATLS", Json.arr []),
      ("BTLS", Json.arr [])])))]

theorem claim_C10_witness :
    hasGroupShape (mLookup (default_json ["1"]) "Open ALL RRR Defects") = true ∧
    hasUatShape (mLookup (default_json ["1"])
      "Customer Specific Testing (UAT)") = true ∧
    isArrShape (mLookup (default_json ["1"]) "E2E Test Coverage") = true ∧
    validate_metrics c10BadFlatDoc = false := by
  refine ⟨?_, ?_, ?_, ?_⟩
  · exact ((claim_C10 (default_json ["1"])).1 (by decide)).1
      "Open ALL RRR Defects" (by decide)
  · exact ((claim_C10 (default_json ["1"])).1 (by decide)).2.1
  · exact ((claim_C10 (default_json ["1"])).1 (by decide)).2.2
      "E2E Test Coverage" (by decide)
  · exact (claim_C10 c10BadFlatDoc).2.1 "E2E Test Coverage" (by decide)
      [("ATLS", Json.arr []), ("BTLS", Json.arr [])] rfl

end RRR
